import Mathlib

/-!
Shallow embedding of `src/generate-documents.js` (the on-call incident
report generator) and proofs about its incident-transformation logic.

Timestamps: the JavaScript code parses each timestamp string twice, once
with `Date.parse` (epoch milliseconds, used for durations) and once with
`moment` (hour of day, day of week, and two formatted renderings, used for
classification and row assembly).  A `DateTime` value records exactly the
observations those two parsers make of one timestamp string.

JavaScript numbers are modelled as `Int` (all arithmetic in the program is
exact integer arithmetic apart from the divisions fed to `Math.ceil` and
`toFixed`, which are modelled exactly below).
-/

/-- Constant `MOMENT_SATURDAY = 6` from the source: the day-of-week number
moment assigns to Saturday. -/
def MOMENT_SATURDAY : Nat := 6

/-- Constant `MOMENT_SUNDAY = 0` from the source: the day-of-week number
moment assigns to Sunday. -/
def MOMENT_SUNDAY : Nat := 0

/-- Model of one parsed timestamp string: the epoch milliseconds seen by
`Date.parse`, and the hour (0-23), weekday number (0-6, 0 = Sunday) and the
two formatted strings produced by `moment`. -/
structure DateTime where
  ms : Int
  hour : Nat
  day : Nat
  dateStr : String
  timeStr : String
deriving DecidableEq

/-- Exact integer value of the JavaScript expression `Math.ceil(a / b)` for
an integer `a` and a positive integer `b` (the ceiling of the exact rational
quotient), written with Lean integer division. -/
def ceilDiv (a b : Int) : Int := -(-a / b)

/-- Embedding of `get_incident_duration`:
`Math.ceil((Date.parse(end_date) - Date.parse(start_date)) / 1000 / 60)`.
Dividing by 1000 and then by 60 is exact rational division by 60000, so the
single ceiling applies to the difference in milliseconds over 60000. -/
def get_incident_duration (start_date end_date : DateTime) : Int :=
  ceilDiv (end_date.ms - start_date.ms) 60000

/-- Embedding of `get_incident_urgency`. -/
def get_incident_urgency (urgency : String) : String :=
  if urgency = "high" then "critical alarm"
  else if urgency = "low" then "non-critical alarm"
  else "unknown"

/-- Embedding of `[MOMENT_SATURDAY, MOMENT_SUNDAY].includes(start_date_obj.day())`. -/
def is_weekend (start_date_obj : DateTime) : Bool :=
  [MOMENT_SATURDAY, MOMENT_SUNDAY].contains start_date_obj.day

/-- Embedding of `get_hours_earned`. -/
def get_hours_earned (start_date end_date : DateTime) (urgency : String) : Int :=
  let start_hour := start_date.hour
  let duration_hours := ceilDiv (get_incident_duration start_date end_date) 60
  if get_incident_urgency urgency ≠ "critical alarm" then 0
  else if 9 ≤ start_hour ∧ start_hour ≤ 17 ∧ ¬(is_weekend start_date) then 0
  else
    let base : Int := 1
    let with_late_night := if start_hour ≤ 4 ∨ 22 ≤ start_hour then base + 1 else base
    with_late_night + max 0 ((duration_hours - 1) * 2)

example : (-7 : Int) / 2 = -4 := by decide

example : ceilDiv 90000 60000 = 2 := by decide

example : get_hours_earned ⟨0, 23, 3, "d", "t"⟩ ⟨3600000, 0, 4, "d", "t"⟩ "high" = 2 := by decide

/-- C1: a critical incident of duration at most 60 minutes earns 0 hours when
it starts on a weekday at an hour in [9,17], 2 hours when it starts at hour
at most 4 or at least 22 on any day, and 1 hour for every other start. -/
theorem claim_C1 (s e : DateTime) (hdur : get_incident_duration s e ≤ 60) :
    get_hours_earned s e "high" =
      if 9 ≤ s.hour ∧ s.hour ≤ 17 ∧ ¬(is_weekend s) then 0
      else if s.hour ≤ 4 ∨ 22 ≤ s.hour then 2 else 1 := by
  have hmax : max 0 ((ceilDiv (get_incident_duration s e) 60 - 1) * 2) = 0 := by
    refine max_eq_left ?_
    unfold ceilDiv
    omega
  simp only [get_hours_earned]
  rw [if_neg (by decide : ¬(get_incident_urgency "high" ≠ "critical alarm"))]
  by_cases hb : 9 ≤ s.hour ∧ s.hour ≤ 17 ∧ ¬(is_weekend s)
  · rw [if_pos hb, if_pos hb]
  · rw [if_neg hb, if_neg hb]
    by_cases hl : s.hour ≤ 4 ∨ 22 ≤ s.hour
    · rw [if_pos hl, if_pos hl, hmax]
      decide
    · rw [if_neg hl, if_neg hl, hmax]
      decide

/-- Closed form of `get_hours_earned` for a critical incident that starts
outside weekday business hours: the late-night rule fixes the base at 2 or 1,
and the duration bonus is `max 0 ((duration_hours - 1) * 2)`. -/
theorem get_hours_earned_off_hours (s e : DateTime)
    (hoff : ¬(9 ≤ s.hour ∧ s.hour ≤ 17 ∧ ¬(is_weekend s))) :
    get_hours_earned s e "high" =
      (if s.hour ≤ 4 ∨ 22 ≤ s.hour then 2 else 1) +
        max 0 ((ceilDiv (get_incident_duration s e) 60 - 1) * 2) := by
  simp only [get_hours_earned]
  rw [if_neg (by decide : ¬(get_incident_urgency "high" ≠ "critical alarm")), if_neg hoff]
  by_cases hl : s.hour ≤ 4 ∨ 22 ≤ s.hour
  · rw [if_pos hl, if_pos hl]
    ring
  · rw [if_neg hl, if_neg hl]

/-- Witness for C1 at a concrete input: weekday (Wednesday) hour 23,
duration 40 minutes. -/
theorem claim_C1_witness :
    get_incident_duration ⟨0, 23, 3, "d", "t"⟩ ⟨2400000, 23, 3, "d", "t"⟩ ≤ 60 ∧
    get_hours_earned ⟨0, 23, 3, "d", "t"⟩ ⟨2400000, 23, 3, "d", "t"⟩ "high" = 2 := by
  refine ⟨by decide, ?_⟩
  rw [claim_C1 ⟨0, 23, 3, "d", "t"⟩ ⟨2400000, 23, 3, "d", "t"⟩ (by decide)]
  decide

/-- C2 as written is refuted at a concrete input: a critical incident on a
weekday at hour 2 (off-hours) of duration 60 minutes earns 2 hours, and
extending it by one additional half hour (to 90 minutes) raises the earned
hours to 4, not to 3 as a rate of one compensated hour per additional
half hour would give. -/
theorem claim_C2_cex :
    get_hours_earned ⟨0, 2, 3, "d", "t"⟩ ⟨3600000, 3, 3, "d", "t"⟩ "high" = 2 ∧
    get_hours_earned ⟨0, 2, 3, "d", "t"⟩ ⟨5400000, 3, 3, "d", "t"⟩ "high" = 4 ∧
    ¬(get_hours_earned ⟨0, 2, 3, "d", "t"⟩ ⟨5400000, 3, 3, "d", "t"⟩ "high"
        = get_hours_earned ⟨0, 2, 3, "d", "t"⟩ ⟨3600000, 3, 3, "d", "t"⟩ "high" + 1) := by
  refine ⟨by decide, by decide, by decide⟩

/-- C2 amended: for a critical off-hours incident the duration bonus is
`max 0 ((ceil(duration_minutes / 60) - 1) * 2)` on top of the base-plus-late-
night component, so hours accrue in whole rounded-up hours of duration at two
compensated hours per additional hour, not per half hour. -/
theorem claim_C2_amended (s e : DateTime)
    (hoff : ¬(9 ≤ s.hour ∧ s.hour ≤ 17 ∧ ¬(is_weekend s))) :
    get_hours_earned s e "high" =
      (if s.hour ≤ 4 ∨ 22 ≤ s.hour then 2 else 1) +
        max 0 ((ceilDiv (get_incident_duration s e) 60 - 1) * 2) :=
  get_hours_earned_off_hours s e hoff

/-- Witness for the amended C2 at a concrete input: weekday hour 18,
duration 90 minutes, giving 1 + 2 = 3 hours. -/
theorem claim_C2_amended_witness :
    get_hours_earned ⟨0, 18, 1, "d", "t"⟩ ⟨5400000, 19, 1, "d", "t"⟩ "high" =
      (if (18 : Nat) ≤ 4 ∨ 22 ≤ (18 : Nat) then 2 else 1) +
        max 0 ((ceilDiv (get_incident_duration ⟨0, 18, 1, "d", "t"⟩ ⟨5400000, 19, 1, "d", "t"⟩) 60 - 1) * 2) :=
  claim_C2_amended ⟨0, 18, 1, "d", "t"⟩ ⟨5400000, 19, 1, "d", "t"⟩ (by decide)

/-- C3 as written is refuted at a concrete input: a critical incident on a
weekday at hour 10 (business hours) with duration 60 minutes earns 0 hours,
and extending it by 60 minutes leaves it at 0 hours, not an increase of 2. -/
theorem claim_C3_cex :
    get_incident_duration ⟨0, 10, 2, "d", "t"⟩ ⟨3600000, 11, 2, "d", "t"⟩ = 60 ∧
    get_hours_earned ⟨0, 10, 2, "d", "t"⟩ ⟨3600000, 11, 2, "d", "t"⟩ "high" = 0 ∧
    get_hours_earned ⟨0, 10, 2, "d", "t"⟩ ⟨7200000, 12, 2, "d", "t"⟩ "high" = 0 ∧
    ¬(get_hours_earned ⟨0, 10, 2, "d", "t"⟩ ⟨7200000, 12, 2, "d", "t"⟩ "high"
        = get_hours_earned ⟨0, 10, 2, "d", "t"⟩ ⟨3600000, 11, 2, "d", "t"⟩ "high" + 2) := by
  refine ⟨by decide, by decide, by decide, by decide⟩

/-- C3 amended: for a critical incident that starts outside weekday business
hours and lasts at least one hour, extending the duration by 60 minutes
(holding the start fixed) increases the earned hours by exactly 2. -/
theorem claim_C3_amended (s e eA : DateTime)
    (hoff : ¬(9 ≤ s.hour ∧ s.hour ≤ 17 ∧ ¬(is_weekend s)))
    (hdur : 60 ≤ get_incident_duration s e)
    (hplus : eA.ms = e.ms + 3600000) :
    get_hours_earned s eA "high" = get_hours_earned s e "high" + 2 := by
  have hdA : get_incident_duration s eA = get_incident_duration s e + 60 := by
    simp only [get_incident_duration, ceilDiv, hplus]
    omega
  have hdh1 : 1 ≤ ceilDiv (get_incident_duration s e) 60 := by
    unfold ceilDiv
    omega
  have hdhA : ceilDiv (get_incident_duration s eA) 60
      = ceilDiv (get_incident_duration s e) 60 + 1 := by
    rw [hdA]
    unfold ceilDiv
    omega
  rw [get_hours_earned_off_hours s e hoff, get_hours_earned_off_hours s eA hoff, hdhA,
    max_eq_right (by omega), max_eq_right (by omega)]
  ring

/-- Witness for the amended C3 at the concrete input from the spec example:
critical, weekday hour 2, duration 150 minutes earns 6 hours, and extending
the duration to 210 minutes earns 6 + 2 hours. -/
theorem claim_C3_amended_witness :
    get_hours_earned ⟨0, 2, 3, "d", "t"⟩ ⟨9000000, 4, 3, "d", "t"⟩ "high" = 6 ∧
    get_hours_earned ⟨0, 2, 3, "d", "t"⟩ ⟨12600000, 5, 3, "d", "t"⟩ "high" =
      get_hours_earned ⟨0, 2, 3, "d", "t"⟩ ⟨9000000, 4, 3, "d", "t"⟩ "high" + 2 := by
  refine ⟨by decide, ?_⟩
  exact claim_C3_amended ⟨0, 2, 3, "d", "t"⟩ ⟨9000000, 4, 3, "d", "t"⟩
    ⟨12600000, 5, 3, "d", "t"⟩ (by decide) (by decide) (by decide)

/-- C4: an incident whose urgency is not the string high earns 0 hours, for
all timestamps. -/
theorem claim_C4 (s e : DateTime) (u : String) (h : u ≠ "high") :
    get_hours_earned s e u = 0 := by
  have hu : ¬(get_incident_urgency u ≠ "critical alarm") → False := by
    intro hc
    apply hc
    simp only [get_incident_urgency]
    rw [if_neg h]
    by_cases hl : u = "low"
    · rw [if_pos hl]
      decide
    · rw [if_neg hl]
      decide
  simp only [get_hours_earned]
  rw [if_pos (by intro hc; exact hu (fun hn => hn hc))]

/-- Witness for C4 at a concrete input: a low-urgency late-night weekend
incident earns 0 hours. -/
theorem claim_C4_witness :
    get_hours_earned ⟨0, 23, 6, "d", "t"⟩ ⟨5400000, 1, 0, "d", "t"⟩ "low" = 0 :=
  claim_C4 ⟨0, 23, 6, "d", "t"⟩ ⟨5400000, 1, 0, "d", "t"⟩ "low" (by decide)

/-- C10: earned hours are never negative, and a critical incident that starts
outside weekday business hours earns at least 1 hour, whatever the
timestamps (in particular even when the end precedes the start, because the
duration bonus is clamped at 0 by the max). -/
theorem claim_C10 (s e : DateTime) (u : String) :
    0 ≤ get_hours_earned s e u ∧
      (u = "high" → ¬(9 ≤ s.hour ∧ s.hour ≤ 17 ∧ ¬(is_weekend s)) →
        1 ≤ get_hours_earned s e u) := by
  have hm : 0 ≤ max 0 ((ceilDiv (get_incident_duration s e) 60 - 1) * 2) :=
    le_max_left 0 _
  constructor
  · simp only [get_hours_earned]
    by_cases hc : get_incident_urgency u ≠ "critical alarm"
    · rw [if_pos hc]
    · rw [if_neg hc]
      by_cases hb : 9 ≤ s.hour ∧ s.hour ≤ 17 ∧ ¬(is_weekend s)
      · rw [if_pos hb]
      · rw [if_neg hb]
        by_cases hl : s.hour ≤ 4 ∨ 22 ≤ s.hour
        · rw [if_pos hl]
          omega
        · rw [if_neg hl]
          omega
  · intro hu hoff
    subst hu
    rw [get_hours_earned_off_hours s e hoff]
    by_cases hl : s.hour ≤ 4 ∨ 22 ≤ s.hour
    · rw [if_pos hl]
      omega
    · rw [if_neg hl]
      omega

/-- Witness for C10 at a concrete input where the end precedes the start by
10 minutes: a critical weekday incident at hour 3 still earns at least 1
hour (and never a negative amount). -/
theorem claim_C10_witness :
    0 ≤ get_hours_earned ⟨600000, 3, 2, "d", "t"⟩ ⟨0, 2, 2, "d", "t"⟩ "high" ∧
    1 ≤ get_hours_earned ⟨600000, 3, 2, "d", "t"⟩ ⟨0, 2, 2, "d", "t"⟩ "high" :=
  ⟨(claim_C10 ⟨600000, 3, 2, "d", "t"⟩ ⟨0, 2, 2, "d", "t"⟩ "high").1,
   (claim_C10 ⟨600000, 3, 2, "d", "t"⟩ ⟨0, 2, 2, "d", "t"⟩ "high").2 rfl (by decide)⟩

/-- One cell of an output row: the JavaScript row arrays mix strings, one
number (the earned hours) and null placeholders. -/
inductive RowField
  | str (s : String)
  | num (n : Int)
  | null
deriving DecidableEq

/-- Model of one PagerDuty incident, restricted to the attributes the
program reads.  `resolve_reason` is `none` when the JSON field is null and
otherwise carries the `type` discriminator string of the resolve reason. -/
structure Incident where
  created_at : DateTime
  last_status_change_at : DateTime
  last_status_change_by_summary : String
  service_summary : String
  urgency : String
  title : String
  html_url : String
  resolve_reason : Option String
deriving DecidableEq

/-- Nearest integer to `num / den` (for positive `den`), rounding ties away
from zero: the rounding `toFixed` performs on an exact decimal argument. -/
def round_half_away (num den : Int) : Int :=
  if 0 ≤ num then (2 * num + den) / (2 * den)
  else -((2 * (-num) + den) / (2 * den))

/-- Rendering of the integer `v100` of hundredths as a decimal string with
exactly two digits after the point, as `toFixed(2)` renders its result. -/
def render_hundredths (v100 : Int) : String :=
  let sign := if v100 < 0 then "-" else ""
  let a := v100.natAbs
  let frac := a % 100
  sign ++ toString (a / 100) ++ "." ++ (if frac < 10 then "0" else "") ++ toString frac

/-- Embedding of `(duration_minutes / 60).toFixed(2)`: the duration in hours
rendered with two decimal places (exact rational arithmetic). -/
def duration_hours_string (duration_minutes : Int) : String :=
  render_hundredths (round_half_away (duration_minutes * 100) 60)

example : duration_hours_string 40 = "0.67" := by decide

example : duration_hours_string 90 = "1.50" := by decide

/-- Embedding of `process_incidents`: skip merge-resolved incidents and build
one 17-entry row array for every other incident, in input order. -/
def process_incidents : List Incident → List (List RowField)
  | [] => []
  | incident :: rest =>
    if incident.resolve_reason = some "merge_resolve_reason" then
      process_incidents rest
    else
      let start_date := incident.created_at
      let end_date := incident.last_status_change_at
      let resolver :=
        if incident.last_status_change_by_summary = incident.service_summary
        then "Auto-resolved"
        else incident.last_status_change_by_summary
      [RowField.str resolver,
       RowField.str start_date.dateStr,
       RowField.str end_date.dateStr,
       RowField.str (get_incident_urgency incident.urgency),
       RowField.num (get_hours_earned start_date end_date incident.urgency),
       RowField.null,
       RowField.str start_date.timeStr,
       RowField.str end_date.timeStr,
       RowField.str (duration_hours_string (get_incident_duration start_date end_date)),
       RowField.null, RowField.null, RowField.null, RowField.null, RowField.null,
       RowField.str incident.service_summary,
       RowField.str incident.title,
       RowField.str incident.html_url] :: process_incidents rest

/-- Sample incident used for concrete evaluations: critical, auto-resolved
after 40 minutes, starting at a weekend midnight. -/
def sample_incident : Incident :=
  { created_at := ⟨0, 0, 6, "2024-06-01", "00:00:00"⟩
    last_status_change_at := ⟨2400000, 0, 6, "2024-06-01", "00:40:00"⟩
    last_status_change_by_summary := "My Service"
    service_summary := "My Service"
    urgency := "high"
    title := "Something broke"
    html_url := "https://example.invalid/incident/1"
    resolve_reason := none }

/-- C5 as written is refuted at a concrete input: the row built for a
non-merged incident has 17 entries (there are five consecutive null
placeholder cells, not four), so it does not have exactly 16 fields. -/
theorem claim_C5_cex :
    (process_incidents [sample_incident]).map List.length = [17] ∧ (17 : Nat) ≠ 16 := by
  refine ⟨by decide, by decide⟩

/-- C5 amended: every row produced by the transformer has exactly 17 fields,
in the fixed order resolver identity, start date, end date, urgency label,
hours earned, empty reconciliation date, start time, end time,
duration-in-hours string, five empty reserved fields, service name, incident
title, incident URL; and each row arises from a non-merged input incident. -/
theorem claim_C5_amended (incs : List Incident) (row : List RowField)
    (h : row ∈ process_incidents incs) :
    row.length = 17 ∧
      ∃ inc, inc ∈ incs ∧ ¬(inc.resolve_reason = some "merge_resolve_reason") ∧
        row =
          [RowField.str (if inc.last_status_change_by_summary = inc.service_summary
              then "Auto-resolved" else inc.last_status_change_by_summary),
           RowField.str inc.created_at.dateStr,
           RowField.str inc.last_status_change_at.dateStr,
           RowField.str (get_incident_urgency inc.urgency),
           RowField.num (get_hours_earned inc.created_at inc.last_status_change_at inc.urgency),
           RowField.null,
           RowField.str inc.created_at.timeStr,
           RowField.str inc.last_status_change_at.timeStr,
           RowField.str (duration_hours_string
              (get_incident_duration inc.created_at inc.last_status_change_at)),
           RowField.null, RowField.null, RowField.null, RowField.null, RowField.null,
           RowField.str inc.service_summary,
           RowField.str inc.title,
           RowField.str inc.html_url] := by
  induction incs with
  | nil => simp [process_incidents] at h
  | cons i rest ih =>
    simp only [process_incidents] at h
    by_cases hm : i.resolve_reason = some "merge_resolve_reason"
    · rw [if_pos hm] at h
      obtain ⟨hlen, inc, hmem, hrr, hrow⟩ := ih h
      exact ⟨hlen, inc, List.mem_cons_of_mem _ hmem, hrr, hrow⟩
    · rw [if_neg hm] at h
      rcases List.mem_cons.mp h with hEq | hTail
      · subst hEq
        exact ⟨rfl, i, List.mem_cons_self _ _, hm, rfl⟩
      · obtain ⟨hlen, inc, hmem, hrr, hrow⟩ := ih hTail
        exact ⟨hlen, inc, List.mem_cons_of_mem _ hmem, hrr, hrow⟩

/-- Witness for the amended C5 at a concrete input: the row produced for the
sample weekend-midnight auto-resolved incident. -/
theorem claim_C5_amended_witness :
    ([RowField.str "Auto-resolved", RowField.str "2024-06-01", RowField.str "2024-06-01",
      RowField.str "critical alarm", RowField.num 2, RowField.null,
      RowField.str "00:00:00", RowField.str "00:40:00", RowField.str "0.67",
      RowField.null, RowField.null, RowField.null, RowField.null, RowField.null,
      RowField.str "My Service", RowField.str "Something broke",
      RowField.str "https://example.invalid/incident/1"] : List RowField).length = 17 ∧
      ∃ inc, inc ∈ [sample_incident] ∧ ¬(inc.resolve_reason = some "merge_resolve_reason") ∧
        ([RowField.str "Auto-resolved", RowField.str "2024-06-01", RowField.str "2024-06-01",
          RowField.str "critical alarm", RowField.num 2, RowField.null,
          RowField.str "00:00:00", RowField.str "00:40:00", RowField.str "0.67",
          RowField.null, RowField.null, RowField.null, RowField.null, RowField.null,
          RowField.str "My Service", RowField.str "Something broke",
          RowField.str "https://example.invalid/incident/1"] : List RowField) =
          [RowField.str (if inc.last_status_change_by_summary = inc.service_summary
              then "Auto-resolved" else inc.last_status_change_by_summary),
           RowField.str inc.created_at.dateStr,
           RowField.str inc.last_status_change_at.dateStr,
           RowField.str (get_incident_urgency inc.urgency),
           RowField.num (get_hours_earned inc.created_at inc.last_status_change_at inc.urgency),
           RowField.null,
           RowField.str inc.created_at.timeStr,
           RowField.str inc.last_status_change_at.timeStr,
           RowField.str (duration_hours_string
              (get_incident_duration inc.created_at inc.last_status_change_at)),
           RowField.null, RowField.null, RowField.null, RowField.null, RowField.null,
           RowField.str inc.service_summary,
           RowField.str inc.title,
           RowField.str inc.html_url] :=
  claim_C5_amended [sample_incident] _ (by decide)

/-- C6: merge-resolved incidents produce no rows (deleting them from the
input leaves the output unchanged), and the number of output rows is the
number of input incidents minus the number of merge-resolved ones. -/
theorem claim_C6 (incs : List Incident) :
    process_incidents
        (incs.filter fun i => !decide (i.resolve_reason = some "merge_resolve_reason"))
      = process_incidents incs ∧
    (process_incidents incs).length =
      incs.length - incs.countP (fun i => decide (i.resolve_reason = some "merge_resolve_reason")) := by
  induction incs with
  | nil => exact ⟨rfl, rfl⟩
  | cons i rest ih =>
    obtain ⟨ih1, ih2⟩ := ih
    have hle := List.countP_le_length
      (p := fun i => decide (i.resolve_reason = some "merge_resolve_reason")) (l := rest)
    by_cases hm : i.resolve_reason = some "merge_resolve_reason"
    · have hd : decide (i.resolve_reason = some "merge_resolve_reason") = true := by
        simp [hm]
      constructor
      · rw [List.filter_cons, if_neg (by simp [hm])]
        simp only [process_incidents, if_pos hm]
        exact ih1
      · simp only [process_incidents, if_pos hm, List.countP_cons, List.length_cons, hd]
        norm_num
        omega
    · have hd : decide (i.resolve_reason = some "merge_resolve_reason") = false := by
        simp [hm]
      constructor
      · rw [List.filter_cons, if_pos (by simp [hm])]
        simp only [process_incidents, if_neg hm]
        rw [ih1]
      · simp only [process_incidents, if_neg hm, List.countP_cons, List.length_cons, hd]
        norm_num
        omega

/-- C7: the first field of the row built for a non-merged incident is the
literal Auto-resolved exactly when the resolver summary equals the service
summary verbatim, and the raw resolver summary string otherwise. -/
theorem claim_C7 (inc : Incident)
    (h : ¬(inc.resolve_reason = some "merge_resolve_reason")) :
    ((process_incidents [inc]).headD []).headD RowField.null =
      RowField.str (if inc.last_status_change_by_summary = inc.service_summary
        then "Auto-resolved" else inc.last_status_change_by_summary) := by
  simp only [process_incidents, if_neg h]
  rfl

/-- Witness for C7 at a concrete input: the sample incident is resolved by
its own service, so its resolver field is the literal Auto-resolved. -/
theorem claim_C7_witness :
    ((process_incidents [sample_incident]).headD []).headD RowField.null =
      RowField.str (if sample_incident.last_status_change_by_summary
          = sample_incident.service_summary
        then "Auto-resolved" else sample_incident.last_status_change_by_summary) :=
  claim_C7 sample_incident (by decide)

/-- The integer ceiling division used to model `Math.ceil` agrees with the
ceiling of the exact rational quotient. -/
theorem ceilDiv_eq_rat_ceil (a : Int) (b : Nat) :
    ceilDiv a b = ⌈(a : ℚ) / (b : ℚ)⌉ := by
  have h : ((a : ℚ) / (b : ℚ)) = -(((-a : ℤ) : ℚ) / ((b : ℕ) : ℚ)) := by
    push_cast
    ring
  rw [h, Int.ceil_neg, Rat.floor_intCast_div_natCast]
  simp only [ceilDiv]

/-- C8 as written is refuted at a concrete input: when the end precedes the
start by only 30 seconds the computed duration is 0, which is not negative
(the ceiling of -0.5 minutes is 0). -/
theorem claim_C8_cex :
    (⟨0, 0, 0, "d", "t"⟩ : DateTime).ms < (⟨30000, 0, 0, "d", "t"⟩ : DateTime).ms ∧
    get_incident_duration ⟨30000, 0, 0, "d", "t"⟩ ⟨0, 0, 0, "d", "t"⟩ = 0 ∧
    ¬(get_incident_duration ⟨30000, 0, 0, "d", "t"⟩ ⟨0, 0, 0, "d", "t"⟩ < 0) := by
  refine ⟨by decide, by decide, by decide⟩

/-- C8 amended: the duration in minutes is the ceiling of the exact
difference in seconds divided by 60 (so a 90-second gap yields 2 minutes);
when the end precedes the start the unclamped result is nonpositive, and it
is strictly negative once the end precedes the start by a full minute or
more. -/
theorem claim_C8_amended (s e : DateTime) :
    get_incident_duration s e = ⌈(((e.ms - s.ms : ℤ) : ℚ) / 1000 / 60)⌉ ∧
    (e.ms < s.ms → get_incident_duration s e ≤ 0) ∧
    (e.ms + 60000 ≤ s.ms → get_incident_duration s e < 0) := by
  refine ⟨?_, ?_, ?_⟩
  · have h := ceilDiv_eq_rat_ceil (e.ms - s.ms) 60000
    push_cast at h
    rw [get_incident_duration, h, div_div]
    norm_num
  · intro h
    simp only [get_incident_duration, ceilDiv]
    omega
  · intro h
    simp only [get_incident_duration, ceilDiv]
    omega

/-- Witness for the amended C8 at concrete inputs: a 90-second gap yields 2
minutes; a 90-second backwards gap yields a negative duration; a 30-second
backwards gap yields a nonpositive duration. -/
theorem claim_C8_amended_witness :
    get_incident_duration ⟨0, 0, 0, "d", "t"⟩ ⟨90000, 0, 0, "d", "t"⟩ = 2 ∧
    get_incident_duration ⟨90000, 0, 0, "d", "t"⟩ ⟨0, 0, 0, "d", "t"⟩ < 0 ∧
    get_incident_duration ⟨30000, 0, 0, "d", "t"⟩ ⟨0, 0, 0, "d", "t"⟩ ≤ 0 :=
  ⟨by decide,
   (claim_C8_amended ⟨90000, 0, 0, "d", "t"⟩ ⟨0, 0, 0, "d", "t"⟩).2.2 (by decide),
   (claim_C8_amended ⟨30000, 0, 0, "d", "t"⟩ ⟨0, 0, 0, "d", "t"⟩).2.1 (by decide)⟩

/-- One page of the incident-listing response: the incidents of the page and
the flag saying whether more pages remain. -/
structure Page where
  incidents : List Incident
  more : Bool

/-- Embedding of the while loop of `get_incidents`.  The response of
`get_incident_page(api_key, start_date, offset, limit)` is abstracted as a
function `fetch_page` of the offset and limit; `fuel` bounds the number of
iterations the loop is unrolled (the source loop runs until a page reports
no more pages). -/
def get_incidents_loop (fetch_page : Nat → Nat → Page) (limit : Nat) :
    Nat → Nat → List Incident → List Incident
  | 0, _, incidents => incidents
  | fuel + 1, page_num, incidents =>
    let page := fetch_page (page_num * limit) limit
    let incidents2 := incidents ++ page.incidents
    if page.more then get_incidents_loop fetch_page limit fuel (page_num + 1) incidents2
    else incidents2

/-- Embedding of `get_incidents`: page through the responses with page size
50, starting at page 0 with an empty accumulator. -/
def get_incidents (fetch_page : Nat → Nat → Page) (fuel : Nat) : List Incident :=
  get_incidents_loop fetch_page 50 fuel 0 []

/-- Unrolling of the retrieval loop: if the pages at indices `p0..p0+n-1`
report more pages and the page at index `p0+n` does not, the loop appends the
incidents of pages `p0..p0+n` to the accumulator, in page order. -/
theorem get_incidents_loop_spec (fetch_page : Nat → Nat → Page) (limit : Nat)
    (n : Nat) :
    ∀ (fuel p0 : Nat) (acc : List Incident),
      (∀ i, i < n → (fetch_page ((p0 + i) * limit) limit).more = true) →
      (fetch_page ((p0 + n) * limit) limit).more = false →
      n < fuel →
      get_incidents_loop fetch_page limit fuel p0 acc =
        acc ++ ((List.range (n + 1)).map
          fun i => (fetch_page ((p0 + i) * limit) limit).incidents).flatten := by
  induction n with
  | zero =>
    intro fuel p0 acc hmore hstop hfuel
    cases fuel with
    | zero => omega
    | succ f =>
      rw [Nat.add_zero] at hstop
      simp only [get_incidents_loop, hstop]
      simp [List.range_succ]
  | succ n ih =>
    intro fuel p0 acc hmore hstop hfuel
    cases fuel with
    | zero => omega
    | succ f =>
      have hm0 : (fetch_page (p0 * limit) limit).more = true := by
        have h0 := hmore 0 (Nat.succ_pos n)
        rwa [Nat.add_zero] at h0
      simp only [get_incidents_loop, hm0, if_true]
      rw [ih f (p0 + 1) (acc ++ (fetch_page (p0 * limit) limit).incidents)
        (fun i hi => by
          rw [show p0 + 1 + i = p0 + (i + 1) by omega]
          exact hmore (i + 1) (by omega))
        (by rw [show p0 + 1 + n = p0 + (n + 1) by omega]; exact hstop)
        (by omega)]
      rw [List.append_assoc]
      congr 1
      rw [List.range_succ_eq_map (n + 1), List.map_cons, List.flatten_cons,
        Nat.add_zero, List.map_map]
      congr 1
      refine congrArg List.flatten (List.map_congr_left fun i _ => ?_)
      simp only [Function.comp_apply]
      have hidx : p0 + Nat.succ i = p0 + 1 + i := by omega
      rw [hidx]

/-- C9: the retriever requests page `i` at offset `i * 50`, concatenates the
pages in response order, and stops with the first page whose more flag is
false: when pages `0..n-1` report more pages and page `n` does not, the
result is exactly the concatenation of the incidents of pages `0..n` (for
any sufficient loop bound). -/
theorem claim_C9 (fetch_page : Nat → Nat → Page) (n fuel : Nat)
    (hmore : ∀ i, i < n → (fetch_page (i * 50) 50).more = true)
    (hstop : (fetch_page (n * 50) 50).more = false)
    (hfuel : n < fuel) :
    get_incidents fetch_page fuel =
      ((List.range (n + 1)).map fun i => (fetch_page (i * 50) 50).incidents).flatten := by
  have h := get_incidents_loop_spec fetch_page 50 n fuel 0 []
    (fun i hi => by rw [Nat.zero_add]; exact hmore i hi)
    (by rw [Nat.zero_add]; exact hstop)
    hfuel
  simpa [get_incidents] using h

/-- Response table used by the C9 witness: three pages of sizes 50, 50 and
12 whose more flags are true, true and false; every later offset is an empty
final page. -/
def sample_fetch_page (offset _limit : Nat) : Page :=
  if offset = 0 then ⟨List.replicate 50 sample_incident, true⟩
  else if offset = 50 then ⟨List.replicate 50 sample_incident, true⟩
  else if offset = 100 then ⟨List.replicate 12 sample_incident, false⟩
  else ⟨[], false⟩

/-- Witness for C9 at the concrete three-page input: the retriever returns
the concatenation of the three pages, 112 incidents. -/
theorem claim_C9_witness :
    get_incidents sample_fetch_page 3 =
      ((List.range 3).map fun i => (sample_fetch_page (i * 50) 50).incidents).flatten ∧
    (get_incidents sample_fetch_page 3).length = 112 := by
  have h := claim_C9 sample_fetch_page 2 3 (by decide) (by decide) (by decide)
  refine ⟨h, ?_⟩
  rw [h]
  decide
